import Mathlib

/-!
A shallow embedding of `src/tools/tools.py` from the
`opensearch-mcp-server-py` repository, together with theorems checking its
specification.  Python JSON-like values are modelled by the inductive type
`Json`; Python dictionaries become ordered association lists (a Python dict
never holds a duplicated key, so first-occurrence semantics agrees with it);
raising operations return `Except PyExc`; every handler's `try/except`
wrapper is an explicit catch.
-/

set_option autoImplicit false

namespace OpenSearchTools

/-- A Python exception, identified by the text `str(e)` would produce. -/
structure PyExc where
  msg : String
deriving DecidableEq, Repr

/-- Python JSON-like values: `None`, booleans, integers, strings, lists and
dicts (ordered association lists, as Python dicts preserve insertion
order). -/
inductive Json where
  | null : Json
  | bool : Bool → Json
  | num : Int → Json
  | str : String → Json
  | arr : List Json → Json
  | obj : List (String × Json) → Json

namespace Json

/-- First value bound to key `k`, mirroring a Python dict lookup. -/
def objGet? : List (String × Json) → String → Option Json
  | [], _ => none
  | p :: ps, k => if p.1 = k then some p.2 else objGet? ps k

/-- Python's `k in d` membership test on a dict. -/
def objMem : List (String × Json) → String → Bool
  | [], _ => false
  | p :: ps, k => p.1 = k || objMem ps k

/-- Python's `del d[k]` on a dict (the key is checked present before the
`del` in the source, so no `KeyError` case is needed at use sites). -/
def objDel : List (String × Json) → String → List (String × Json)
  | [], _ => []
  | p :: ps, k => if p.1 = k then objDel ps k else p :: objDel ps k

/-- Rebinding of key `k` to `v` inside a dict, used to reflect an in-place
mutation of the value stored at `k`. -/
def objSet : List (String × Json) → String → Json → List (String × Json)
  | [], _, _ => []
  | p :: ps, k, v => if p.1 = k then (p.1, v) :: objSet ps k v else p :: objSet ps k v

end Json

/-- Python `d.get(k, default)`: `AttributeError` when the receiver is not a
dict. -/
def pyDictGet (j : Json) (k : String) (default : Json) : Except PyExc Json :=
  match j with
  | .obj fs => .ok ((Json.objGet? fs k).getD default)
  | _ => .error ⟨"AttributeError: object has no attribute get"⟩

/-- Python subscript `c[k]` with a string key: dict lookup (`KeyError` when
absent), `TypeError` on any non-dict receiver. -/
def pyGetItem (c : Json) (k : String) : Except PyExc Json :=
  match c with
  | .obj fs =>
    match Json.objGet? fs k with
    | some v => .ok v
    | none => .error ⟨"KeyError: " ++ k⟩
  | _ => .error ⟨"TypeError: indices must be integers"⟩

/-- Substring occurrence test over character lists. -/
def listStartsWith : List Char → List Char → Bool
  | [], _ => true
  | _ :: _, [] => false
  | n :: ns, c :: cs => n = c && listStartsWith ns cs

/-- `listSub ns cs` holds when `ns` occurs contiguously inside `cs`. -/
def listSub : List Char → List Char → Bool
  | ns, [] => ns.isEmpty
  | ns, c :: cs => listStartsWith ns (c :: cs) || listSub ns (c :: cs).tail

/-- `strOccursIn needle hay`: Python's `needle in hay` on strings. -/
def strOccursIn (needle hay : String) : Bool :=
  listSub needle.toList hay.toList

/-- Python's `needle in c` where `needle` is a string: dict-key membership,
list membership, substring test on strings, `TypeError` otherwise. -/
def pyContains (c : Json) (needle : String) : Except PyExc Bool :=
  match c with
  | .obj fs => .ok (Json.objMem fs needle)
  | .arr xs => .ok (xs.any (fun x => match x with | .str s => s = needle | _ => false))
  | .str s => .ok (strOccursIn needle s)
  | _ => .error ⟨"TypeError: argument of type is not iterable"⟩

/-- Python's `del c[k]` as an expression returning the updated container:
only a dict supports deletion by string key. -/
def pyDelItem (c : Json) (k : String) : Except PyExc Json :=
  match c with
  | .obj fs => .ok (.obj (Json.objDel fs k))
  | _ => .error ⟨"TypeError: object does not support item deletion"⟩

/-- Python iteration `for x in c`: list elements, dict keys, the characters
of a string; `TypeError` on the remaining values. -/
def pyIter (c : Json) : Except PyExc (List Json) :=
  match c with
  | .arr xs => .ok xs
  | .obj fs => .ok (fs.map (fun p => Json.str p.1))
  | .str s => .ok (s.toList.map (fun ch => Json.str (String.singleton ch)))
  | _ => .error ⟨"TypeError: object is not iterable"⟩

mutual

/-- Python `repr` of a JSON-like value (modelled for values whose strings
hold no quote, backslash or control character — the only forms the
handlers ever format). -/
def pyRepr : Json → String
  | .null => "None"
  | .bool true => "True"
  | .bool false => "False"
  | .num n => toString n
  | .str s => "'" ++ s ++ "'"
  | .arr xs => "[" ++ String.intercalate ", " (pyReprList xs) ++ "]"
  | .obj fs => "\x7b" ++ String.intercalate ", " (pyReprPairs fs) ++ "\x7d"

def pyReprList : List Json → List String
  | [] => []
  | x :: xs => pyRepr x :: pyReprList xs

def pyReprPairs : List (String × Json) → List String
  | [] => []
  | (k, v) :: ps => ("'" ++ k ++ "': " ++ pyRepr v) :: pyReprPairs ps

end

/-- Python `str` of a JSON-like value, as an f-string interpolation
produces: the identity on strings, `repr` elsewhere. -/
def pyStr (j : Json) : String :=
  match j with
  | .str s => s
  | other => pyRepr other

/-- Lower-case hexadecimal digit. -/
def hexDigit (n : Nat) : Char :=
  if n < 10 then Char.ofNat (48 + n) else Char.ofNat (87 + n % 16)

/-- Four-digit lower-case hexadecimal rendering used by `\uXXXX` escapes. -/
def hex4 (n : Nat) : String :=
  String.mk [hexDigit (n / 4096 % 16), hexDigit (n / 256 % 16),
             hexDigit (n / 16 % 16), hexDigit (n % 16)]

/-- `json.dumps` escaping of one character with `ensure_ascii=True` (the
default used by the handlers): everything outside printable ASCII becomes a
`\uXXXX` escape, astral code points a surrogate pair. -/
def jsonEscapeChar (c : Char) : String :=
  if c = '"' then "\\\""
  else if c = '\\' then "\\\\"
  else if c = '\n' then "\\n"
  else if c = '\t' then "\\t"
  else if c = '\r' then "\\r"
  else if c.toNat = 8 then "\\b"
  else if c.toNat = 12 then "\\f"
  else if c.toNat < 32 || c.toNat > 126 then
    if c.toNat ≤ 65535 then "\\u" ++ hex4 c.toNat
    else
      "\\u" ++ hex4 (55296 + (c.toNat - 65536) / 1024) ++
      "\\u" ++ hex4 (56320 + (c.toNat - 65536) % 1024)
  else String.singleton c

/-- `json.dumps` rendering of a string literal. -/
def jsonQuote (s : String) : String :=
  "\"" ++ String.join (s.toList.map jsonEscapeChar) ++ "\""

/-- `n` spaces. -/
def spaces (n : Nat) : String :=
  String.mk (List.replicate n ' ')

mutual

/-- `json.dumps(j, indent=2)` at nesting indentation `level` (the handlers
call it at level 0). -/
def dumps : Json → Nat → String
  | .null, _ => "null"
  | .bool true, _ => "true"
  | .bool false, _ => "false"
  | .num n, _ => toString n
  | .str s, _ => jsonQuote s
  | .arr [], _ => "[]"
  | .arr (x :: xs), level =>
      "[\n" ++ dumpsItems (x :: xs) (level + 2) ++ "\n" ++ spaces level ++ "]"
  | .obj [], _ => "\x7b\x7d"
  | .obj (p :: ps), level =>
      "\x7b\n" ++ dumpsPairs (p :: ps) (level + 2) ++ "\n" ++ spaces level ++ "\x7d"

def dumpsItems : List Json → Nat → String
  | [], _ => ""
  | [x], level => spaces level ++ dumps x level
  | x :: y :: xs, level =>
      spaces level ++ dumps x level ++ ",\n" ++ dumpsItems (y :: xs) level

def dumpsPairs : List (String × Json) → Nat → String
  | [], _ => ""
  | [(k, v)], level => spaces level ++ jsonQuote k ++ ": " ++ dumps v level
  | (k, v) :: q :: ps, level =>
      spaces level ++ jsonQuote k ++ ": " ++ dumps v level ++ ",\n" ++
      dumpsPairs (q :: ps) level

end

/-! ## The tool handlers -/

/-- One `{"type": "text", "text": ...}` record of a response envelope. -/
structure TextContent where
  type : String
  text : String
deriving DecidableEq, Repr

/-- The `AREA_CODES` table of `tools.py`: the 47 prefecture names and their
JMA `overview_forecast` region codes, in source order. -/
def AREA_CODES : List (String × String) :=
  [("北海道", "016000"), ("青森県", "020000"), ("岩手県", "030000"),
   ("宮城県", "040000"), ("秋田県", "050000"), ("山形県", "060000"),
   ("福島県", "070000"), ("茨城県", "080000"), ("栃木県", "090000"),
   ("群馬県", "100000"), ("埼玉県", "110000"), ("千葉県", "120000"),
   ("東京都", "130000"), ("神奈川県", "140000"), ("新潟県", "150000"),
   ("富山県", "160000"), ("石川県", "170000"), ("福井県", "180000"),
   ("山梨県", "190000"), ("長野県", "200000"), ("岐阜県", "210000"),
   ("静岡県", "220000"), ("愛知県", "230000"), ("三重県", "240000"),
   ("滋賀県", "250000"), ("京都府", "260000"), ("大阪府", "270000"),
   ("兵庫県", "280000"), ("奈良県", "290000"), ("和歌山県", "300000"),
   ("鳥取県", "310000"), ("島根県", "320000"), ("岡山県", "330000"),
   ("広島県", "340000"), ("山口県", "350000"), ("徳島県", "360000"),
   ("香川県", "370000"), ("愛媛県", "380000"), ("高知県", "390000"),
   ("福岡県", "400000"), ("佐賀県", "410000"), ("長崎県", "420000"),
   ("熊本県", "430000"), ("大分県", "440000"), ("宮崎県", "450000"),
   ("鹿児島県", "460100"), ("沖縄県", "471000")]

/-- `AREA_CODES.get(prefecture)`. -/
def lookupArea (prefecture : String) : Option String :=
  (AREA_CODES.find? (fun p => p.1 = prefecture)).map (fun p => p.2)

/-- An HTTP response as the weather handler consumes it: a status code and
the outcome of `response.json()` (which may itself raise). -/
structure HttpResponse where
  status : Nat
  jsonBody : Except PyExc Json

/-- The URL `get_weather_tool` builds for a region code. -/
def weatherUrl (code : String) : String :=
  "https://www.jma.go.jp/bosai/forecast/data/overview_forecast/" ++ code ++ ".json"

/-- The unsupported-prefecture warning text of `get_weather_tool`. -/
def unsupportedPrefectureText (prefecture : String) : String :=
  "⚠️ 「" ++ prefecture ++ "」は対応していません。47都道府県のいずれかを指定してください。"

/-- The fixed text `get_weather_tool` returns from its `except` clause. -/
def weatherFailureText : String :=
  "⚠️ 天気情報の取得に失敗しました（気象庁API通信エラー）"

/-- The success text of `get_weather_tool` for extracted field values. -/
def weatherReportText (prefecture : String) (office datetime text : Json) : String :=
  "📍 " ++ prefecture ++ "（" ++ pyStr office ++ " 発表）\n🕒 " ++
    pyStr datetime ++ "\n\n" ++ pyStr text

/-- The `try` body of `get_weather_tool`, instrumented with the list of
URLs requested (`requests.get` is the only outbound call).  `net` abstracts
the network: the response, or the exception `requests.get` raises.
`raise_for_status` raises exactly on a 4xx or 5xx status. -/
def get_weather_body (prefecture : String)
    (net : String → Except PyExc HttpResponse) :
    Except PyExc (List TextContent) × List String :=
  match lookupArea prefecture with
  | none =>
      (.ok [⟨"text", unsupportedPrefectureText prefecture⟩], [])
  | some code =>
      if code = "" then
        (.ok [⟨"text", unsupportedPrefectureText prefecture⟩], [])
      else
        match net (weatherUrl code) with
        | .error e => (.error e, [weatherUrl code])
        | .ok response =>
          if 400 ≤ response.status ∧ response.status < 600 then
            (.error ⟨"HTTPError"⟩, [weatherUrl code])
          else
            match response.jsonBody with
            | .error e => (.error e, [weatherUrl code])
            | .ok data =>
              match data with
              | .obj fs =>
                (.ok [⟨"text", weatherReportText prefecture
                  ((Json.objGet? fs "publishingOffice").getD (.str "不明"))
                  ((Json.objGet? fs "reportDatetime").getD (.str "不明"))
                  ((Json.objGet? fs "text").getD (.str "天気情報が取得できませんでした。"))⟩],
                 [weatherUrl code])
              | _ => (.error ⟨"AttributeError: object has no attribute get"⟩, [weatherUrl code])

/-- `get_weather_tool`: the body wrapped in its `try/except`, paired with
the list of URLs requested. -/
def get_weather_tool (prefecture : String)
    (net : String → Except PyExc HttpResponse) : List TextContent × List String :=
  match get_weather_body prefecture net with
  | (.ok r, calls) => (r, calls)
  | (.error _, calls) => ([⟨"text", weatherFailureText⟩], calls)

/-- The generator `(index["index"] for index in indices)` consumed by
`"\n".join`: each item is subscripted, and `str.join` raises `TypeError`
on a non-string item. -/
def extractIndexNames : List Json → Except PyExc (List String)
  | [] => .ok []
  | ix :: rest =>
    match pyGetItem ix "index" with
    | .error e => .error e
    | .ok (.str s) =>
      match extractIndexNames rest with
      | .error e => .error e
      | .ok names => .ok (s :: names)
    | .ok _ => .error ⟨"TypeError: sequence item: expected str instance"⟩

/-- The `try` body of `list_indices_tool`; `outcome` is what the
`list_indices()` collaborator call produced. -/
def list_indices_body (outcome : Except PyExc Json) :
    Except PyExc (List TextContent) :=
  match outcome with
  | .error e => .error e
  | .ok indices =>
    match pyIter indices with
    | .error e => .error e
    | .ok items =>
      match extractIndexNames items with
      | .error e => .error e
      | .ok names => .ok [⟨"text", String.intercalate "\n" names⟩]

/-- `list_indices_tool`: body plus `except` clause. -/
def list_indices_tool (outcome : Except PyExc Json) : List TextContent :=
  match list_indices_body outcome with
  | .ok r => r
  | .error e => [⟨"text", "Error listing indices: " ++ e.msg⟩]

/-- The `try` body of `get_index_mapping_tool`. -/
def get_index_mapping_body (index : String) (outcome : Except PyExc Json) :
    Except PyExc (List TextContent) :=
  match outcome with
  | .error e => .error e
  | .ok mapping =>
      .ok [⟨"text", "Mapping for " ++ index ++ ":\n" ++ dumps mapping 0⟩]

/-- `get_index_mapping_tool`: body plus `except` clause. -/
def get_index_mapping_tool (index : String) (outcome : Except PyExc Json) :
    List TextContent :=
  match get_index_mapping_body index outcome with
  | .ok r => r
  | .error e => [⟨"text", "Error getting mapping: " ++ e.msg⟩]

/-- The loop body of `search_index_tool` on one hit: skip anything that is
not a dict holding `_source`; otherwise delete `_source.embedding` when
present, then delete `_source.metadata._node_content` when `metadata` is
present, a dict and holds it.  Each membership test, subscript and `del`
follows the Python semantics (so a non-dict `_source` can raise, and the
raise is caught by the handler's `except`). -/
def redactItem (item : Json) : Except PyExc Json :=
  match item with
  | .obj fs =>
    match Json.objGet? fs "_source" with
    | none => .ok (.obj fs)
    | some src =>
      match pyContains src "embedding" with
      | .error e => .error e
      | .ok hasEmb =>
        match (if hasEmb then pyDelItem src "embedding" else .ok src) with
        | .error e => .error e
        | .ok src1 =>
          match pyContains src1 "metadata" with
          | .error e => .error e
          | .ok hasMeta =>
            if hasMeta then
              match src1 with
              | .obj s1 =>
                match Json.objGet? s1 "metadata" with
                | some (.obj mfs) =>
                  if Json.objMem mfs "_node_content" then
                    .ok (.obj (Json.objSet fs "_source"
                      (.obj (Json.objSet s1 "metadata"
                        (.obj (Json.objDel mfs "_node_content"))))))
                  else .ok (.obj (Json.objSet fs "_source" (.obj s1)))
                | some _ => .ok (.obj (Json.objSet fs "_source" (.obj s1)))
                | none => .error ⟨"KeyError: metadata"⟩
              | _ => .error ⟨"TypeError: indices must be integers"⟩
            else .ok (.obj (Json.objSet fs "_source" src1))
  | other => .ok other

/-- `redactItem` applied across the iterated hits. -/
def redactItems : List Json → Except PyExc (List Json)
  | [] => .ok []
  | x :: xs =>
    match redactItem x with
    | .error e => .error e
    | .ok x' =>
      match redactItems xs with
      | .error e => .error e
      | .ok xs' => .ok (x' :: xs')

/-- One pass of the iteration target `result.get("hits", {}).get("hits", [])`:
mutation only reaches `result` when both `hits` keys are present; iterating
a dict visits its keys and a string its characters (never dicts, so the
loop body is a no-op there); other non-list targets raise `TypeError`. -/
def redactTarget (h2 : Json) : Except PyExc Json :=
  match h2 with
  | .arr xs =>
    match redactItems xs with
    | .error e => .error e
    | .ok xs' => .ok (.arr xs')
  | .obj fs => .ok (.obj fs)
  | .str s => .ok (.str s)
  | _ => .error ⟨"TypeError: object is not iterable"⟩

/-- The redaction loop of `search_index_tool` as a transformation of the
collaborator's result.  `result.get("hits", {})` raises on a non-dict
result; a present non-dict `hits` value raises at the second `.get`; a
missing key falls back to an empty default, so the loop runs zero times and
the result is returned unchanged. -/
def redactResult (result : Json) : Except PyExc Json :=
  match result with
  | .obj fs =>
    match Json.objGet? fs "hits" with
    | none => .ok (.obj fs)
    | some h1 =>
      match h1 with
      | .obj hfs =>
        match Json.objGet? hfs "hits" with
        | none => .ok (.obj fs)
        | some h2 =>
          match redactTarget h2 with
          | .error e => .error e
          | .ok h2' =>
            .ok (.obj (Json.objSet fs "hits" (.obj (Json.objSet hfs "hits" h2'))))
      | _ => .error ⟨"AttributeError: object has no attribute get"⟩
  | _ => .error ⟨"AttributeError: object has no attribute get"⟩

/-- The `try` body of `search_index_tool`; `outcome` is what
`search_index(args.index, args.query)` produced. -/
def search_index_body (index : String) (outcome : Except PyExc Json) :
    Except PyExc (List TextContent) :=
  match outcome with
  | .error e => .error e
  | .ok result =>
    match redactResult result with
    | .error e => .error e
    | .ok r =>
        .ok [⟨"text", "Original Search results from " ++ index ++ ":\n" ++ dumps r 0⟩]

/-- `search_index_tool`: body plus `except` clause. -/
def search_index_tool (index : String) (outcome : Except PyExc Json) :
    List TextContent :=
  match search_index_body index outcome with
  | .ok r => r
  | .error e => [⟨"text", "Error searching index: " ++ e.msg⟩]

/-- The fixed column order of the shards table. -/
def shardKeys : List String :=
  ["index", "shard", "prirep", "state", "docs", "store", "ip", "node"]

/-- The header row of the shards table (without its trailing newline). -/
def shardsHeaderLine : String :=
  "index | shard | prirep | state | docs | store | ip | node"

/-- The eight subscripts of one shard row, in source order (the first
failing subscript raises, as in the Python f-string chain). -/
def rowFields (shard : Json) : List String → Except PyExc (List String)
  | [] => .ok []
  | k :: ks =>
    match pyGetItem shard k with
    | .error e => .error e
    | .ok v =>
      match rowFields shard ks with
      | .error e => .error e
      | .ok rest => .ok (pyStr v :: rest)

/-- One rendered row of the shards table. -/
def shardRow (shard : Json) : Except PyExc String :=
  match rowFields shard shardKeys with
  | .error e => .error e
  | .ok fields => .ok (String.intercalate " | " fields ++ "\n")

/-- All rendered rows. -/
def shardRows : List Json → Except PyExc (List String)
  | [] => .ok []
  | s :: ss =>
    match shardRow s with
    | .error e => .error e
    | .ok row =>
      match shardRows ss with
      | .error e => .error e
      | .ok rows => .ok (row :: rows)

/-- The table branch of `get_shards_tool`: iterate the result and append
one row per shard to the header. -/
def shardTable (result : Json) : Except PyExc (List TextContent) :=
  match pyIter result with
  | .error e => .error e
  | .ok shards =>
    match shardRows shards with
    | .error e => .error e
    | .ok rows =>
        .ok [⟨"text", shardsHeaderLine ++ "\n" ++ String.join rows⟩]

/-- The `try` body of `get_shards_tool`: the early return on an
error-shaped dict, then the table. -/
def get_shards_body (outcome : Except PyExc Json) :
    Except PyExc (List TextContent) :=
  match outcome with
  | .error e => .error e
  | .ok result =>
    match result with
    | .obj fs =>
      match Json.objGet? fs "error" with
      | some v => .ok [⟨"text", "Error getting shards: " ++ pyStr v⟩]
      | none => shardTable (.obj fs)
    | other => shardTable other

/-- `get_shards_tool`: body plus `except` clause. -/
def get_shards_tool (outcome : Except PyExc Json) : List TextContent :=
  match get_shards_body outcome with
  | .ok r => r
  | .error e => [⟨"text", "Error getting shards information: " ++ e.msg⟩]

/-! ## The registry -/

/-- One invocation of a handler from `TOOL_REGISTRY`, with its argument
values and the collaborator outcome it observes: an arbitrary raised fault,
or an arbitrary (possibly malformed) JSON-like result; for the weather tool
an arbitrary network behaviour. -/
inductive ToolInvocation where
  | listIndices (outcome : Except PyExc Json)
  | indexMapping (index : String) (outcome : Except PyExc Json)
  | searchIndex (index : String) (outcome : Except PyExc Json)
  | getShards (index : String) (outcome : Except PyExc Json)
  | getWeather (prefecture : String) (net : String → Except PyExc HttpResponse)

/-- Dispatch through the registry to the named handler. -/
def invoke : ToolInvocation → List TextContent
  | .listIndices outcome => list_indices_tool outcome
  | .indexMapping index outcome => get_index_mapping_tool index outcome
  | .searchIndex index outcome => search_index_tool index outcome
  | .getShards _ outcome => get_shards_tool outcome
  | .getWeather prefecture net => (get_weather_tool prefecture net).1

/-- The registered tool names, paired with their descriptions, in
`TOOL_REGISTRY` order. -/
def TOOL_REGISTRY : List (String × String) :=
  [("ListIndexTool", "Lists all indices in OpenSearch"),
   ("IndexMappingTool", "Retrieves index mapping and setting information for an index in OpenSearch"),
   ("SearchIndexTool", "Searches an index using a query written in query domain-specific language (DSL) in OpenSearch"),
   ("GetShardsTool", "Gets information about shards in OpenSearch"),
   ("GetWeatherTool", "Retrieves weather information for a Japanese prefecture using the Japan Meteorological Agency API")]

/-! ## Derived notions used to state the properties -/

/-- A hit whose `_source`, when present at all, is a dict (the shape every
real search result has; a non-dict `_source` sends the handler into its
`except` clause instead). -/
def sourceIsDictB (x : Json) : Bool :=
  match x with
  | .obj gs =>
    match Json.objGet? gs "_source" with
    | some (.obj _) => true
    | some _ => false
    | none => true
  | _ => true

/-- Removal of `_node_content` from a metadata value when it is a dict. -/
def stripNodeContent : Json → Json
  | .obj mfs => .obj (Json.objDel mfs "_node_content")
  | m => m

/-- How a redacted hit relates to the original: when the original is a
dict with a dict `_source`, the redacted hit is a dict whose `_source` has
no `embedding` key, agrees with the original on every key other than
`embedding` and `metadata`, and holds at `metadata` the original value
with `_node_content` stripped. -/
def HitRel (x x' : Json) : Prop :=
  ∀ gs src, x = .obj gs → Json.objGet? gs "_source" = some (.obj src) →
    ∃ gs' src', x' = .obj gs' ∧
      Json.objGet? gs' "_source" = some (.obj src') ∧
      Json.objMem src' "embedding" = false ∧
      (∀ k, k ≠ "embedding" → k ≠ "metadata" →
        Json.objGet? src' k = Json.objGet? src k) ∧
      Json.objGet? src' "metadata" =
        (Json.objGet? src "metadata").map stripNodeContent

/-- A hit whose `_source.metadata`, when a dict, holds no `_node_content`
key. -/
def HitNodeFree (x' : Json) : Prop :=
  ∀ gs' src' mfs', x' = .obj gs' →
    Json.objGet? gs' "_source" = some (.obj src') →
    Json.objGet? src' "metadata" = some (.obj mfs') →
    Json.objMem mfs' "_node_content" = false

/-- A shard record holding all eight table keys. -/
def isShardRecord (x : Json) : Bool :=
  match x with
  | .obj fs => shardKeys.all (fun k => Json.objMem fs k)
  | _ => false

/-- The value a shard record holds at key `k`. -/
def shardFieldOf (x : Json) (k : String) : Json :=
  match x with
  | .obj fs => (Json.objGet? fs k).getD .null
  | _ => .null

/-- The rendered table row of a shard record. -/
def shardRowOf (x : Json) : String :=
  String.intercalate " | " (shardKeys.map (fun k => pyStr (shardFieldOf x k))) ++ "\n"

/-- A network outcome on which the weather handler faults: the request
raises, or the status is 4xx/5xx, or the body fails to parse, or the
parsed body is not a dict. -/
def weatherFaulty (o : Except PyExc HttpResponse) : Bool :=
  match o with
  | .error _ => true
  | .ok resp =>
    (decide (400 ≤ resp.status) && decide (resp.status < 600)) ||
    (match resp.jsonBody with
     | .error _ => true
     | .ok (.obj _) => false
     | .ok _ => true)

/-! ## Concrete values used as witnesses -/

/-- A concrete search hit holding both redacted fields. -/
def exHit : Json :=
  .obj [("_id", .str "1"), ("_source", .obj
    [("title", .str "t"), ("embedding", .arr [.num 1]),
     ("metadata", .obj [("_node_content", .str "blob"), ("k", .num 7)])])]

/-- The `hits` object of the concrete search result. -/
def exHitsObj : List (String × Json) :=
  [("total", .num 1), ("hits", .arr [exHit])]

/-- The concrete search result wrapping `exHit`. -/
def exResult : List (String × Json) :=
  [("took", .num 3), ("hits", .obj exHitsObj)]

/-- A concrete shard record. -/
def exShard1 : Json :=
  .obj [("index", .str "i1"), ("shard", .num 0), ("prirep", .str "p"),
    ("state", .str "STARTED"), ("docs", .num 5), ("store", .str "1kb"),
    ("ip", .str "1.2.3.4"), ("node", .str "n1")]

/-- A second concrete shard record. -/
def exShard2 : Json :=
  .obj [("index", .str "i1"), ("shard", .num 1), ("prirep", .str "r"),
    ("state", .str "STARTED"), ("docs", .num 8), ("store", .str "2kb"),
    ("ip", .str "1.2.3.5"), ("node", .str "n2")]

/-! ## Dictionary lemmas -/

namespace Json

theorem objGet?_eq_none_of_not_mem {fs : List (String × Json)} {k : String}
    (h : objMem fs k = false) : objGet? fs k = none := by
  induction fs with
  | nil => rfl
  | cons p ps ih =>
    simp only [objMem, Bool.or_eq_false_iff, decide_eq_false_iff_not] at h
    simp only [objGet?, if_neg h.1]
    exact ih h.2

theorem objMem_of_objGet? {fs : List (String × Json)} {k : String} {v : Json}
    (h : objGet? fs k = some v) : objMem fs k = true := by
  by_contra hm
  rw [objGet?_eq_none_of_not_mem (Bool.eq_false_iff.mpr hm)] at h
  exact Option.noConfusion h

theorem objGet?_isSome_of_mem {fs : List (String × Json)} {k : String}
    (h : objMem fs k = true) : ∃ v, objGet? fs k = some v := by
  induction fs with
  | nil => exact absurd h (by simp [objMem])
  | cons p ps ih =>
    by_cases hp : p.1 = k
    · exact ⟨p.2, by simp [objGet?, hp]⟩
    · simp only [objMem, Bool.or_eq_true, decide_eq_true_eq] at h
      rcases h with h | h
      · exact absurd h hp
      · obtain ⟨v, hv⟩ := ih h
        exact ⟨v, by simp [objGet?, hp, hv]⟩

theorem objDel_of_not_mem {fs : List (String × Json)} {k : String}
    (h : objMem fs k = false) : objDel fs k = fs := by
  induction fs with
  | nil => rfl
  | cons p ps ih =>
    simp only [objMem, Bool.or_eq_false_iff, decide_eq_false_iff_not] at h
    simp [objDel, if_neg h.1, ih h.2]

theorem objMem_objDel_self (fs : List (String × Json)) (k : String) :
    objMem (objDel fs k) k = false := by
  induction fs with
  | nil => rfl
  | cons p ps ih =>
    by_cases hp : p.1 = k
    · simp [objDel, hp, ih]
    · simp [objDel, objMem, hp, ih]

theorem objGet?_objDel_ne {fs : List (String × Json)} {k k' : String}
    (h : k' ≠ k) : objGet? (objDel fs k) k' = objGet? fs k' := by
  induction fs with
  | nil => rfl
  | cons p ps ih =>
    by_cases hp : p.1 = k
    · have hk' : ¬ p.1 = k' := fun hh => h (hh ▸ hp ▸ rfl)
      have hkk : ¬ k = k' := fun hh => h hh.symm
      simp [objDel, objGet?, hp, hk', hkk, ih]
    · by_cases hk' : p.1 = k'
      · simp [objDel, objGet?, hp, hk', h]
      · simp [objDel, objGet?, hp, hk', h, ih]

theorem objMem_objSet (fs : List (String × Json)) (k k' : String) (v : Json) :
    objMem (objSet fs k v) k' = objMem fs k' := by
  induction fs with
  | nil => rfl
  | cons p ps ih =>
    by_cases hp : p.1 = k
    · simp [objSet, objMem, hp, ih]
    · simp [objSet, objMem, hp, ih]

theorem objGet?_objSet_self {fs : List (String × Json)} {k : String} (v : Json)
    (h : objMem fs k = true) : objGet? (objSet fs k v) k = some v := by
  induction fs with
  | nil => exact absurd h (by simp [objMem])
  | cons p ps ih =>
    by_cases hp : p.1 = k
    · simp [objSet, objGet?, hp]
    · simp only [objMem, Bool.or_eq_true, decide_eq_true_eq] at h
      rcases h with h | h
      · exact absurd h hp
      · simp [objSet, objGet?, hp, ih h]

theorem objGet?_objSet_ne {fs : List (String × Json)} {k k' : String} (v : Json)
    (h : k' ≠ k) : objGet? (objSet fs k v) k' = objGet? fs k' := by
  induction fs with
  | nil => rfl
  | cons p ps ih =>
    by_cases hp : p.1 = k
    · have hk' : ¬ p.1 = k' := fun hh => h (hh ▸ hp ▸ rfl)
      have hkk : ¬ k = k' := fun hh => h hh.symm
      simp [objSet, objGet?, hp, hk', hkk, ih]
    · by_cases hk' : p.1 = k'
      · simp [objSet, objGet?, hp, hk', h]
      · simp [objSet, objGet?, hp, hk', h, ih]

end Json

/-! ## Envelope-shape lemmas -/

theorem list_indices_body_shape {o : Except PyExc Json} {r : List TextContent}
    (h : list_indices_body o = Except.ok r) : ∃ s, r = [⟨"text", s⟩] := by
  unfold list_indices_body at h
  repeat' split at h
  all_goals cases h
  all_goals exact ⟨_, rfl⟩

theorem get_index_mapping_body_shape {index : String} {o : Except PyExc Json}
    {r : List TextContent} (h : get_index_mapping_body index o = Except.ok r) :
    ∃ s, r = [⟨"text", s⟩] := by
  unfold get_index_mapping_body at h
  repeat' split at h
  all_goals cases h
  all_goals exact ⟨_, rfl⟩

theorem search_index_body_shape {index : String} {o : Except PyExc Json}
    {r : List TextContent} (h : search_index_body index o = Except.ok r) :
    ∃ s, r = [⟨"text", s⟩] := by
  unfold search_index_body at h
  repeat' split at h
  all_goals cases h
  all_goals exact ⟨_, rfl⟩

theorem shardTable_shape {result : Json} {r : List TextContent}
    (h : shardTable result = Except.ok r) : ∃ s, r = [⟨"text", s⟩] := by
  unfold shardTable at h
  repeat' split at h
  all_goals cases h
  all_goals exact ⟨_, rfl⟩

theorem get_shards_body_shape {o : Except PyExc Json} {r : List TextContent}
    (h : get_shards_body o = Except.ok r) : ∃ s, r = [⟨"text", s⟩] := by
  unfold get_shards_body at h
  repeat' split at h
  · cases h
  · cases h
    exact ⟨_, rfl⟩
  · exact shardTable_shape h
  · exact shardTable_shape h

theorem list_indices_tool_shape (o : Except PyExc Json) :
    ∃ s, list_indices_tool o = [⟨"text", s⟩] := by
  cases hb : list_indices_body o with
  | error e =>
    exact ⟨"Error listing indices: " ++ e.msg, by simp [list_indices_tool, hb]⟩
  | ok r =>
    obtain ⟨s, rfl⟩ := list_indices_body_shape hb
    exact ⟨s, by simp [list_indices_tool, hb]⟩

theorem get_index_mapping_tool_shape (index : String) (o : Except PyExc Json) :
    ∃ s, get_index_mapping_tool index o = [⟨"text", s⟩] := by
  cases hb : get_index_mapping_body index o with
  | error e =>
    exact ⟨"Error getting mapping: " ++ e.msg, by simp [get_index_mapping_tool, hb]⟩
  | ok r =>
    obtain ⟨s, rfl⟩ := get_index_mapping_body_shape hb
    exact ⟨s, by simp [get_index_mapping_tool, hb]⟩

theorem search_index_tool_shape (index : String) (o : Except PyExc Json) :
    ∃ s, search_index_tool index o = [⟨"text", s⟩] := by
  cases hb : search_index_body index o with
  | error e =>
    exact ⟨"Error searching index: " ++ e.msg, by simp [search_index_tool, hb]⟩
  | ok r =>
    obtain ⟨s, rfl⟩ := search_index_body_shape hb
    exact ⟨s, by simp [search_index_tool, hb]⟩

theorem get_shards_tool_shape (o : Except PyExc Json) :
    ∃ s, get_shards_tool o = [⟨"text", s⟩] := by
  cases hb : get_shards_body o with
  | error e =>
    exact ⟨"Error getting shards information: " ++ e.msg, by simp [get_shards_tool, hb]⟩
  | ok r =>
    obtain ⟨s, rfl⟩ := get_shards_body_shape hb
    exact ⟨s, by simp [get_shards_tool, hb]⟩

theorem get_weather_body_shape {prefecture : String}
    {net : String → Except PyExc HttpResponse} {r : List TextContent}
    {calls : List String}
    (h : get_weather_body prefecture net = (Except.ok r, calls)) :
    ∃ s, r = [⟨"text", s⟩] := by
  unfold get_weather_body at h
  repeat' split at h
  all_goals
    first
      | (injection h with h1 h2; exact Except.noConfusion h1)
      | (injection h with h1 h2; injection h1 with h1; exact ⟨_, h1.symm⟩)

theorem get_weather_tool_shape (prefecture : String)
    (net : String → Except PyExc HttpResponse) :
    ∃ s, (get_weather_tool prefecture net).1 = [⟨"text", s⟩] := by
  unfold get_weather_tool
  split
  next r calls heq =>
    obtain ⟨s, rfl⟩ := get_weather_body_shape heq
    exact ⟨s, rfl⟩
  next e calls heq => exact ⟨weatherFailureText, rfl⟩

/-- Every dispatch produces a single `{"type": "text"}` record. -/
theorem invoke_shape (call : ToolInvocation) :
    ∃ s, invoke call = [⟨"text", s⟩] := by
  cases call with
  | listIndices o => exact list_indices_tool_shape o
  | indexMapping i o => exact get_index_mapping_tool_shape i o
  | searchIndex i o => exact search_index_tool_shape i o
  | getShards i o => exact get_shards_tool_shape o
  | getWeather p net => exact get_weather_tool_shape p net

/-- C1: every tool handler in the registry (list-indices, index-mapping,
search-index, get-shards, get-weather), for every argument value and every
collaborator outcome — success, raised fault, or malformed result — returns
a nonempty sequence of records whose `type` field is `"text"` and whose
`text` field is a string; being a total function of the outcome, it never
propagates an exception to the caller. -/
theorem invoke_returns_text_envelope (call : ToolInvocation) :
    invoke call ≠ [] ∧ ∀ r ∈ invoke call, r.type = "text" := by
  obtain ⟨s, hs⟩ := invoke_shape call
  rw [hs]
  exact ⟨by simp, by simp⟩

/-- C9: every handler, on every input and every collaborator outcome,
returns a list of length exactly one. -/
theorem invoke_returns_singleton (call : ToolInvocation) :
    (invoke call).length = 1 := by
  obtain ⟨s, hs⟩ := invoke_shape call
  rw [hs]
  rfl

/-- Witness for C1 at a concrete faulting invocation. -/
theorem invoke_returns_text_envelope_witness :
    invoke (.listIndices (Except.error ⟨"connection reset"⟩)) ≠ [] ∧
    ∀ r ∈ invoke (.listIndices (Except.error ⟨"connection reset"⟩)), r.type = "text" :=
  invoke_returns_text_envelope (.listIndices (Except.error ⟨"connection reset"⟩))

/-- Witness for C9 at a concrete malformed-result invocation. -/
theorem invoke_returns_singleton_witness :
    (invoke (.getShards "movies" (Except.ok (Json.num 3)))).length = 1 :=
  invoke_returns_singleton (.getShards "movies" (Except.ok (Json.num 3)))

/-! ## Redaction lemmas (search handler) -/

theorem stripNodeContent_no_node (m : Json) (mfs : List (String × Json))
    (h : stripNodeContent m = .obj mfs) :
    Json.objMem mfs "_node_content" = false := by
  cases m with
  | obj mfs0 =>
    simp only [stripNodeContent] at h
    injection h with h
    subst h
    exact Json.objMem_objDel_self mfs0 _
  | null => exact Json.noConfusion h
  | bool b => exact Json.noConfusion h
  | num n => exact Json.noConfusion h
  | str s => exact Json.noConfusion h
  | arr xs => exact Json.noConfusion h

/-- Characterization of `redactItem` on a hit whose `_source` is a dict:
it succeeds, and the new `_source` has lost `embedding`, kept every other
non-`metadata` key, and had `_node_content` stripped from a dict
`metadata`. -/
theorem redactItem_source_obj (gs src : List (String × Json))
    (h : Json.objGet? gs "_source" = some (.obj src)) :
    ∃ src', redactItem (.obj gs) =
        Except.ok (.obj (Json.objSet gs "_source" (.obj src'))) ∧
      Json.objMem src' "embedding" = false ∧
      (∀ k, k ≠ "embedding" → k ≠ "metadata" →
        Json.objGet? src' k = Json.objGet? src k) ∧
      Json.objGet? src' "metadata" =
        (Json.objGet? src "metadata").map stripNodeContent := by
  have hne : ("metadata" : String) ≠ "embedding" := by decide
  have hS1get : ∀ k, k ≠ "embedding" →
      Json.objGet? (Json.objDel src "embedding") k = Json.objGet? src k :=
    fun k hk => Json.objGet?_objDel_ne hk
  have hbase :
      (if Json.objMem src "embedding" then pyDelItem (.obj src) "embedding"
        else Except.ok (.obj src)) =
        Except.ok (.obj (Json.objDel src "embedding")) := by
    cases hdef : Json.objMem src "embedding" with
    | true => rfl
    | false =>
      rw [Json.objDel_of_not_mem hdef]
      rfl
  unfold redactItem
  simp only [h, pyContains]
  rw [hbase]
  simp only [pyContains]
  cases hmeta : Json.objMem (Json.objDel src "embedding") "metadata" with
  | false =>
    refine ⟨Json.objDel src "embedding", ?_, Json.objMem_objDel_self src _,
      fun k hk _ => hS1get k hk, ?_⟩
    · simp
    · rw [Json.objGet?_eq_none_of_not_mem hmeta,
        ← hS1get "metadata" hne, Json.objGet?_eq_none_of_not_mem hmeta]
      rfl
  | true =>
    obtain ⟨mv, hmv⟩ := Json.objGet?_isSome_of_mem hmeta
    rw [hmv]
    simp only
    cases mv with
    | obj mfs =>
      cases hnode : Json.objMem mfs "_node_content" with
      | true =>
        refine ⟨Json.objSet (Json.objDel src "embedding") "metadata"
          (.obj (Json.objDel mfs "_node_content")), by simp [hnode], ?_, ?_, ?_⟩
        · rw [Json.objMem_objSet]
          exact Json.objMem_objDel_self src _
        · intro k hk hkm
          rw [Json.objGet?_objSet_ne _ hkm, hS1get k hk]
        · rw [Json.objGet?_objSet_self _ hmeta, ← hS1get "metadata" hne, hmv]
          rfl
      | false =>
        refine ⟨Json.objDel src "embedding", by simp [hnode],
          Json.objMem_objDel_self src _, fun k hk _ => hS1get k hk, ?_⟩
        rw [hmv, ← hS1get "metadata" hne, hmv]
        simp only [Option.map_some', stripNodeContent]
        rw [Json.objDel_of_not_mem hnode]
    | null =>
      exact ⟨Json.objDel src "embedding", by simp, Json.objMem_objDel_self src _,
        fun k hk _ => hS1get k hk, by rw [hmv, ← hS1get "metadata" hne, hmv]; rfl⟩
    | bool b =>
      exact ⟨Json.objDel src "embedding", by simp, Json.objMem_objDel_self src _,
        fun k hk _ => hS1get k hk, by rw [hmv, ← hS1get "metadata" hne, hmv]; rfl⟩
    | num n =>
      exact ⟨Json.objDel src "embedding", by simp, Json.objMem_objDel_self src _,
        fun k hk _ => hS1get k hk, by rw [hmv, ← hS1get "metadata" hne, hmv]; rfl⟩
    | str s =>
      exact ⟨Json.objDel src "embedding", by simp, Json.objMem_objDel_self src _,
        fun k hk _ => hS1get k hk, by rw [hmv, ← hS1get "metadata" hne, hmv]; rfl⟩
    | arr xs =>
      exact ⟨Json.objDel src "embedding", by simp, Json.objMem_objDel_self src _,
        fun k hk _ => hS1get k hk, by rw [hmv, ← hS1get "metadata" hne, hmv]; rfl⟩

/-- On a well-formed hit, `redactItem` succeeds and establishes the
redaction relation. -/
theorem redactItem_total_of_wf {x : Json} (hx : sourceIsDictB x = true) :
    ∃ x', redactItem x = Except.ok x' ∧ HitRel x x' ∧ HitNodeFree x' := by
  cases x with
  | obj gs =>
    cases hsv : Json.objGet? gs "_source" with
    | none =>
      refine ⟨.obj gs, by simp [redactItem, hsv], ?_, ?_⟩
      · intro gs0 src0 hx0 hsrc0
        injection hx0 with hgs
        subst hgs
        rw [hsv] at hsrc0
        exact Option.noConfusion hsrc0
      · intro gs' src' mfs' hx' hsrc' hmeta'
        injection hx' with hgs'
        subst hgs'
        rw [hsv] at hsrc'
        exact Option.noConfusion hsrc'
    | some v =>
      cases v with
      | obj src =>
        obtain ⟨src', heq, hemb, hpres, hmeta⟩ := redactItem_source_obj gs src hsv
        have hget' : Json.objGet? (Json.objSet gs "_source" (.obj src')) "_source" =
            some (.obj src') :=
          Json.objGet?_objSet_self _ (Json.objMem_of_objGet? hsv)
        refine ⟨_, heq, ?_, ?_⟩
        · intro gs0 src0 hx0 hsrc0
          injection hx0 with hgs
          subst hgs
          rw [hsv] at hsrc0
          injection hsrc0 with hv
          injection hv with hv
          subst hv
          exact ⟨Json.objSet gs "_source" (.obj src'), src', rfl, hget', hemb,
            hpres, hmeta⟩
        · intro gs' src0' mfs' hx' hsrc' hmeta'
          injection hx' with hgs'
          subst hgs'
          rw [hget'] at hsrc'
          injection hsrc' with hv
          injection hv with hv
          subst hv
          rw [hmeta] at hmeta'
          cases hm : Json.objGet? src "metadata" with
          | none =>
            rw [hm] at hmeta'
            exact Option.noConfusion hmeta'
          | some m =>
            rw [hm, Option.map_some'] at hmeta'
            injection hmeta' with hmm
            exact stripNodeContent_no_node m mfs' hmm
      | null => simp [sourceIsDictB, hsv] at hx
      | bool b => simp [sourceIsDictB, hsv] at hx
      | num n => simp [sourceIsDictB, hsv] at hx
      | str s => simp [sourceIsDictB, hsv] at hx
      | arr xs => simp [sourceIsDictB, hsv] at hx
  | null =>
    exact ⟨.null, rfl, fun _ _ hx0 _ => Json.noConfusion hx0,
      fun _ _ _ hx0 _ _ => Json.noConfusion hx0⟩
  | bool b =>
    exact ⟨.bool b, rfl, fun _ _ hx0 _ => Json.noConfusion hx0,
      fun _ _ _ hx0 _ _ => Json.noConfusion hx0⟩
  | num n =>
    exact ⟨.num n, rfl, fun _ _ hx0 _ => Json.noConfusion hx0,
      fun _ _ _ hx0 _ _ => Json.noConfusion hx0⟩
  | str s =>
    exact ⟨.str s, rfl, fun _ _ hx0 _ => Json.noConfusion hx0,
      fun _ _ _ hx0 _ _ => Json.noConfusion hx0⟩
  | arr xs =>
    exact ⟨.arr xs, rfl, fun _ _ hx0 _ => Json.noConfusion hx0,
      fun _ _ _ hx0 _ _ => Json.noConfusion hx0⟩

/-- `redactItems` on a list of well-formed hits: succeeds, preserves
length, and redacts pointwise. -/
theorem redactItems_of_wf {xs : List Json} (h : xs.all sourceIsDictB = true) :
    ∃ xs', redactItems xs = Except.ok xs' ∧ xs'.length = xs.length ∧
      ∀ i (hi : i < xs.length) (hi' : i < xs'.length),
        HitRel (xs.get ⟨i, hi⟩) (xs'.get ⟨i, hi'⟩) ∧
        HitNodeFree (xs'.get ⟨i, hi'⟩) := by
  induction xs with
  | nil => exact ⟨[], rfl, rfl, fun i hi _ => absurd hi (Nat.not_lt_zero i)⟩
  | cons x xs ih =>
    simp only [List.all_cons, Bool.and_eq_true] at h
    obtain ⟨x', hx', hrel, hnf⟩ := redactItem_total_of_wf h.1
    obtain ⟨xs', hxs', hlen, hpt⟩ := ih h.2
    refine ⟨x' :: xs', by simp [redactItems, hx', hxs'], by simp [hlen], ?_⟩
    intro i hi hi'
    cases i with
    | zero => exact ⟨hrel, hnf⟩
    | succ n => exact hpt n (Nat.lt_of_succ_lt_succ hi) (Nat.lt_of_succ_lt_succ hi')

/-- C2: on every search-index invocation whose result holds its hits under
`hits.hits` (each hit's `_source`, when present, being a dict), the
handler's single output record serializes exactly the redacted structure:
every hit's `_source` has lost its `embedding` field, its dict `metadata`
holds no `_node_content` field, and every other `_source` field is
preserved unchanged — unconditionally on every such invocation. -/
theorem search_index_tool_redacts (index : String)
    (fs hfs : List (String × Json)) (xs : List Json)
    (h1 : Json.objGet? fs "hits" = some (.obj hfs))
    (h2 : Json.objGet? hfs "hits" = some (.arr xs))
    (hwf : xs.all sourceIsDictB = true) :
    ∃ xs', redactItems xs = Except.ok xs' ∧
      search_index_tool index (.ok (.obj fs)) =
        [⟨"text", "Original Search results from " ++ index ++ ":\n" ++
          dumps (.obj (Json.objSet fs "hits"
            (.obj (Json.objSet hfs "hits" (.arr xs'))))) 0⟩] ∧
      xs'.length = xs.length ∧
      ∀ i (hi : i < xs.length) (hi' : i < xs'.length),
        HitRel (xs.get ⟨i, hi⟩) (xs'.get ⟨i, hi'⟩) ∧
        HitNodeFree (xs'.get ⟨i, hi'⟩) := by
  obtain ⟨xs', hxs', hlen, hpt⟩ := redactItems_of_wf hwf
  refine ⟨xs', hxs', ?_, hlen, hpt⟩
  simp [search_index_tool, search_index_body, redactResult, h1, h2,
    redactTarget, hxs']

/-- Witness for C2: the redaction theorem applied to a concrete result
whose one hit carries both an `embedding` field and a
`metadata._node_content` field. -/
theorem search_index_tool_redacts_witness :
    ∃ xs', redactItems [exHit] = Except.ok xs' ∧
      search_index_tool "idx" (.ok (.obj exResult)) =
        [⟨"text", "Original Search results from " ++ "idx" ++ ":\n" ++
          dumps (.obj (Json.objSet exResult "hits"
            (.obj (Json.objSet exHitsObj "hits" (.arr xs'))))) 0⟩] ∧
      xs'.length = [exHit].length ∧
      ∀ i (hi : i < [exHit].length) (hi' : i < xs'.length),
        HitRel ([exHit].get ⟨i, hi⟩) (xs'.get ⟨i, hi'⟩) ∧
        HitNodeFree (xs'.get ⟨i, hi'⟩) :=
  search_index_tool_redacts "idx" exResult exHitsObj [exHit] rfl rfl rfl

/-! ## Shards handler -/

/-- C3: whenever the shards collaborator returns a mapping with an
`error` key bound to a string, the handler returns the single error record
immediately; at the spec's example the text is exactly
`"Error getting shards: cluster unavailable"` and the table header line
does not occur in it. -/
theorem get_shards_tool_error_shape :
    (∀ s fs, Json.objGet? fs "error" = some (.str s) →
      get_shards_tool (.ok (.obj fs)) =
        [⟨"text", "Error getting shards: " ++ s⟩]) ∧
    get_shards_tool (.ok (.obj [("error", .str "cluster unavailable")])) =
      [⟨"text", "Error getting shards: cluster unavailable"⟩] ∧
    strOccursIn shardsHeaderLine "Error getting shards: cluster unavailable" = false := by
  refine ⟨?_, rfl, by decide⟩
  intro s fs h
  simp [get_shards_tool, get_shards_body, h, pyStr]

/-- Witness for C3 at a further concrete error value. -/
theorem get_shards_tool_error_shape_witness :
    get_shards_tool (.ok (.obj [("error", .str "down")])) =
      [⟨"text", "Error getting shards: " ++ "down"⟩] :=
  get_shards_tool_error_shape.1 "down" [("error", .str "down")] rfl

theorem rowFields_of_keys {fs : List (String × Json)} (ks : List String)
    (h : ks.all (fun k => Json.objMem fs k) = true) :
    rowFields (.obj fs) ks =
      Except.ok (ks.map (fun k => pyStr ((Json.objGet? fs k).getD .null))) := by
  induction ks with
  | nil => rfl
  | cons k ks ih =>
    simp only [List.all_cons, Bool.and_eq_true] at h
    obtain ⟨v, hv⟩ := Json.objGet?_isSome_of_mem h.1
    simp [rowFields, pyGetItem, hv, ih h.2]

theorem shardRow_of_record {x : Json} (h : isShardRecord x = true) :
    shardRow x = Except.ok (shardRowOf x) := by
  cases x with
  | obj fs =>
    simp only [isShardRecord] at h
    simp [shardRow, rowFields_of_keys shardKeys h, shardRowOf, shardFieldOf]
  | null => exact absurd h (by simp [isShardRecord])
  | bool b => exact absurd h (by simp [isShardRecord])
  | num n => exact absurd h (by simp [isShardRecord])
  | str s => exact absurd h (by simp [isShardRecord])
  | arr xs => exact absurd h (by simp [isShardRecord])

theorem shardRows_of_records {xs : List Json} (h : xs.all isShardRecord = true) :
    shardRows xs = Except.ok (xs.map shardRowOf) := by
  induction xs with
  | nil => rfl
  | cons x xs ih =>
    simp only [List.all_cons, Bool.and_eq_true] at h
    simp [shardRows, shardRow_of_record h.1, ih h.2]

/-- C4: when the shards collaborator returns a sequence of records each
holding the eight table keys, the output text is exactly the fixed header
line followed by one pipe-joined data line per record, in collaborator
order. -/
theorem get_shards_tool_table (xs : List Json)
    (h : xs.all isShardRecord = true) :
    get_shards_tool (.ok (.arr xs)) =
      [⟨"text", shardsHeaderLine ++ "\n" ++ String.join (xs.map shardRowOf)⟩] := by
  simp [get_shards_tool, get_shards_body, shardTable, pyIter,
    shardRows_of_records h]

/-- Witness for C4 at two concrete shard records. -/
theorem get_shards_tool_table_witness :
    get_shards_tool (.ok (.arr [exShard1, exShard2])) =
      [⟨"text", shardsHeaderLine ++ "\n" ++
        String.join ([exShard1, exShard2].map shardRowOf)⟩] :=
  get_shards_tool_table [exShard1, exShard2] rfl

/-- C10: on an empty shard sequence the handler still succeeds, returning
one record holding exactly the header line with its trailing newline and
zero data rows. -/
theorem get_shards_tool_empty_table :
    get_shards_tool (Except.ok (Json.arr [])) =
      [⟨"text", shardsHeaderLine ++ "\n"⟩] := by decide

/-! ## Weather handler -/

/-- On a matched, nonempty area code the handler performs exactly one
request, to the interpolated forecast-overview URL, whatever the network
does. -/
theorem get_weather_tool_calls (prefecture code : String)
    (net : String → Except PyExc HttpResponse)
    (hc : lookupArea prefecture = some code) (hne : ¬ code = "") :
    (get_weather_tool prefecture net).2 = [weatherUrl code] := by
  unfold get_weather_tool get_weather_body
  simp only [hc, if_neg hne]
  cases hn : net (weatherUrl code) with
  | error e => simp [hn]
  | ok resp =>
    simp only [hn]
    by_cases hs : 400 ≤ resp.status ∧ resp.status < 600
    · simp [hs]
    · simp only [if_neg hs]
      cases hb : resp.jsonBody with
      | error e => simp [hb]
      | ok data => cases data <;> simp [hb]

/-- C5: `"東京都"` maps to region code `"130000"` and the handler requests
exactly the fixed URL template with that code interpolated; any prefecture
absent from the 47-entry table triggers no network call and yields the
unsupported-prefecture warning record. -/
theorem get_weather_tool_area_lookup :
    AREA_CODES.length = 47 ∧
    lookupArea "東京都" = some "130000" ∧
    (∀ net, (get_weather_tool "東京都" net).2 =
      ["https://www.jma.go.jp/bosai/forecast/data/overview_forecast/130000.json"]) ∧
    ∀ prefecture net, lookupArea prefecture = none →
      (get_weather_tool prefecture net).2 = [] ∧
      (get_weather_tool prefecture net).1 =
        [⟨"text", unsupportedPrefectureText prefecture⟩] := by
  refine ⟨rfl, rfl, ?_, ?_⟩
  · intro net
    have h := get_weather_tool_calls "東京都" "130000" net rfl (by decide)
    rw [h]
    decide
  · intro prefecture net h
    unfold get_weather_tool get_weather_body
    rw [h]
    exact ⟨rfl, rfl⟩

/-- Witness for C5 at a prefecture string outside the table. -/
theorem get_weather_tool_area_lookup_witness :
    (get_weather_tool "Tokyo" (fun _ => Except.error ⟨"boom"⟩)).2 = [] ∧
    (get_weather_tool "Tokyo" (fun _ => Except.error ⟨"boom"⟩)).1 =
      [⟨"text", unsupportedPrefectureText "Tokyo"⟩] :=
  get_weather_tool_area_lookup.2.2.2 "Tokyo" (fun _ => Except.error ⟨"boom"⟩) rfl

/-- C6: whenever the network outcome faults — the request raises, the
status is 4xx/5xx, or the body fails to parse as a dict — the envelope is
exactly the one fixed generic failure record, independent of the fault's
message or type, so any two faulting invocations return identical
envelopes. -/
theorem get_weather_tool_fault_generic (prefecture code : String)
    (net : String → Except PyExc HttpResponse)
    (hc : lookupArea prefecture = some code) (hne : ¬ code = "")
    (hf : weatherFaulty (net (weatherUrl code)) = true) :
    (get_weather_tool prefecture net).1 = [⟨"text", weatherFailureText⟩] := by
  unfold get_weather_tool get_weather_body
  simp only [hc, if_neg hne]
  cases hn : net (weatherUrl code) with
  | error e => simp [hn]
  | ok resp =>
    simp only [hn]
    rw [hn] at hf
    by_cases hs : 400 ≤ resp.status ∧ resp.status < 600
    · simp [hs]
    · simp only [if_neg hs]
      have hdec : (decide (400 ≤ resp.status) && decide (resp.status < 600)) = false := by
        rw [← Bool.decide_and]
        exact decide_eq_false hs
      simp only [weatherFaulty, hdec, Bool.false_or] at hf
      cases hb : resp.jsonBody with
      | error e => simp [hb]
      | ok data =>
        rw [hb] at hf
        cases data with
        | obj fs => exact absurd hf (by simp)
        | null => simp [hb]
        | bool b => simp [hb]
        | num n => simp [hb]
        | str s => simp [hb]
        | arr xs => simp [hb]

/-- Witness for C6: a raised connection error and a 503 status produce the
same fixed envelope. -/
theorem get_weather_tool_fault_generic_witness :
    (get_weather_tool "東京都" (fun _ => Except.error ⟨"ConnectionError: refused"⟩)).1 =
      [⟨"text", weatherFailureText⟩] ∧
    (get_weather_tool "東京都" (fun _ => Except.ok ⟨503, Except.ok Json.null⟩)).1 =
      [⟨"text", weatherFailureText⟩] :=
  ⟨get_weather_tool_fault_generic "東京都" "130000"
      (fun _ => Except.error ⟨"ConnectionError: refused"⟩) rfl (by decide) rfl,
   get_weather_tool_fault_generic "東京都" "130000"
      (fun _ => Except.ok ⟨503, Except.ok Json.null⟩) rfl (by decide) (by decide)⟩

/-- C7 (amended): on a matched prefecture whose request succeeds with a
dict body, the handler extracts the three fields with the Japanese
defaults `"不明"`, `"不明"` and `"天気情報が取得できませんでした。"` when
absent, composing the formatted multi-line response. -/
theorem get_weather_tool_success (prefecture code : String)
    (net : String → Except PyExc HttpResponse) (resp : HttpResponse)
    (fs : List (String × Json))
    (hc : lookupArea prefecture = some code) (hne : ¬ code = "")
    (hnet : net (weatherUrl code) = Except.ok resp)
    (hst : ¬ (400 ≤ resp.status ∧ resp.status < 600))
    (hbody : resp.jsonBody = Except.ok (.obj fs)) :
    (get_weather_tool prefecture net).1 =
      [⟨"text", weatherReportText prefecture
        ((Json.objGet? fs "publishingOffice").getD (.str "不明"))
        ((Json.objGet? fs "reportDatetime").getD (.str "不明"))
        ((Json.objGet? fs "text").getD (.str "天気情報が取得できませんでした。"))⟩] := by
  unfold get_weather_tool get_weather_body
  simp [hc, if_neg hne, hnet, if_neg hst, hbody]

/-- Witness for C7's amended statement: an absent report timestamp and
forecast text fall back to the Japanese defaults. -/
theorem get_weather_tool_success_witness :
    (get_weather_tool "東京都"
      (fun _ => Except.ok ⟨200, Except.ok (.obj [("publishingOffice", Json.str "気象庁")])⟩)).1 =
      [⟨"text", weatherReportText "東京都"
        ((Json.objGet? [("publishingOffice", Json.str "気象庁")] "publishingOffice").getD (.str "不明"))
        ((Json.objGet? [("publishingOffice", Json.str "気象庁")] "reportDatetime").getD (.str "不明"))
        ((Json.objGet? [("publishingOffice", Json.str "気象庁")] "text").getD (.str "天気情報が取得できませんでした。"))⟩] :=
  get_weather_tool_success "東京都" "130000"
    (fun _ => Except.ok ⟨200, Except.ok (.obj [("publishingOffice", Json.str "気象庁")])⟩)
    ⟨200, Except.ok (.obj [("publishingOffice", Json.str "気象庁")])⟩
    [("publishingOffice", Json.str "気象庁")]
    rfl (by decide) rfl (by decide) rfl

/-- Counterexample for C7 as stated: with an empty JSON body the composed
text holds the Japanese defaults, not the claimed strings `"unknown"` and
`"weather information unavailable"`. -/
theorem get_weather_tool_defaults_counterexample :
    (get_weather_tool "東京都" (fun _ => Except.ok ⟨200, Except.ok (.obj [])⟩)).1 =
      [⟨"text", "📍 東京都（不明 発表）\n🕒 不明\n\n天気情報が取得できませんでした。"⟩] ∧
    (get_weather_tool "東京都" (fun _ => Except.ok ⟨200, Except.ok (.obj [])⟩)).1 ≠
      [⟨"text", "📍 東京都（unknown 発表）\n🕒 unknown\n\nweather information unavailable"⟩] ∧
    strOccursIn "unknown"
      "📍 東京都（不明 発表）\n🕒 不明\n\n天気情報が取得できませんでした。" = false ∧
    strOccursIn "weather information unavailable"
      "📍 東京都（不明 発表）\n🕒 不明\n\n天気情報が取得できませんでした。" = false :=
  ⟨by decide, by decide, by decide, by decide⟩

/-! ## Mapping handler -/

/-- C8: on collaborator success the mapping handler returns the
`"Mapping for {index}:"` prefix followed by the indented JSON
serialization; on a fault whose message is `"timeout"` it returns exactly
`"Error getting mapping: timeout"`. -/
theorem get_index_mapping_tool_contract :
    (∀ index mapping, get_index_mapping_tool index (Except.ok mapping) =
      [⟨"text", "Mapping for " ++ index ++ ":\n" ++ dumps mapping 0⟩]) ∧
    ∀ index, get_index_mapping_tool index (Except.error ⟨"timeout"⟩) =
      [⟨"text", "Error getting mapping: timeout"⟩] := by
  constructor
  · intro index mapping
    rfl
  · intro index
    have h : ("Error getting mapping: " ++ "timeout" : String) =
        "Error getting mapping: timeout" := by decide
    simp [get_index_mapping_tool, get_index_mapping_body, h]

end OpenSearchTools
